import Mathlib

/-!
Shallow embedding of the crypto-alert-bot repository (src/bot.py, src/services.py,
src/handlers/commands.py) for verification of its specification.

Modelling choices:
* Prices and timestamps are rationals (ℚ): SQLite REAL / Python float prices enter every
  claim only through order comparisons and exact decimal constants, and datetime values
  only through subtraction and comparison against a cooldown timedelta.
* Fallible effects (HTTP fetch, message delivery) are oracles: a fetch oracle
  String → Except Unit ℚ (error = any of timeout / raise_for_status / malformed payload),
  a delivery oracle Int → String → Bool (false = bot.send_message raised).
* The alert store is a list of rows plus an autoincrement counter; the UNIQUE index on
  (user_id, symbol, target_price) and aiosqlite.IntegrityError are modelled by an explicit
  duplicate-key check in add_alert.
* Python exceptions are Except / early-return values; the try/except at the cycle boundary
  of check_alerts_loop is the total function runCycle, and the unbounded while-True loop is
  the total function loopRun over the cycle index.
-/

namespace CryptoAlertBot

/-- Row of the alerts table as loaded by load_alerts (bot.py lines 19-26). -/
structure AlertRow where
  alert_id : Nat
  user_id : Int
  symbol : String
  target_price : ℚ
  last_price : Option ℚ
  last_notified_at : Option ℚ
  deriving DecidableEq, Repr

/-- Strip every trailing occurrence of character c, Python str.rstrip with a
single-character argument. -/
def rstripChar (s : String) (c : Char) : String :=
  String.mk ((s.toList.reverse.dropWhile (fun d => d == c)).reverse)

/-- Left-pad the decimal digits of k with zeros to width 8, the fractional field of
Python percent-.8f formatting. -/
def padFrac8 (k : Nat) : String :=
  String.mk (List.replicate (8 - (toString k).length) '0') ++ toString k

/-- Fixed-point rendering with exactly 8 fractional digits: the Python f-string
f-value-.8f, with the rounding of the decimal expansion made explicit
(round half up of q * 10^8; every value appearing in the spec is an exact
multiple of 10^-8, where all rounding modes agree). -/
def formatFixed8 (q : ℚ) : String :=
  let n : ℤ := Int.fdiv (2 * q.num * 100000000 + q.den) (2 * q.den)
  let sign := if n < 0 then "-" else ""
  let m := n.natAbs
  sign ++ toString (m / 100000000) ++ "." ++ padFrac8 (m % 100000000)

/-- format_price (bot.py lines 83-84): 8-digit fixed rendering, then rstrip of
trailing zeros, then rstrip of a trailing decimal point. -/
def format_price (q : ℚ) : String :=
  rstripChar (rstripChar (formatFixed8 q) '0') '.'

/-- Direction label of the notification message (bot.py line 144): the Russian
word for above when current_price >= target_price, for below otherwise. -/
def direction (current target : ℚ) : String :=
  if target ≤ current then "выше" else "ниже"

/-- Text of the notification message (bot.py lines 145-148). -/
def messageText (symbol : String) (current target : ℚ) : String :=
  "⚠️ " ++ symbol ++ ": цена " ++ format_price current ++ " " ++ direction current target
    ++ " цели " ++ format_price target

/-- parse_iso (bot.py lines 74-80). datetime.fromisoformat is an external library
function abstracted as an oracle returning none where Python raises ValueError;
the falsy branch of the source covers both a missing value and the empty string. -/
def parse_iso (fromisoformat : String → Option ℚ) (value : Option String) : Option ℚ :=
  match value with
  | none => none
  | some s => if s = "" then none else fromisoformat s

/-- Crossing test of check_alerts_loop (bot.py lines 134-138): crossed stays false
when last_price is absent, otherwise the two chained comparisons of the source. -/
def crossedCalc (last_price : Option ℚ) (target current : ℚ) : Bool :=
  match last_price with
  | none => false
  | some lp =>
      (decide (lp < target) && decide (target ≤ current)) ||
      (decide (lp > target) && decide (target ≥ current))

/-- Cooldown gating of check_alerts_loop (bot.py lines 139-142): should_notify
starts as crossed and is reset when a previous notification is within cooldown. -/
def shouldNotifyCalc (crossed : Bool) (last_notified_at : Option ℚ) (now cooldown : ℚ) : Bool :=
  if crossed then
    match last_notified_at with
    | some t => if now - t < cooldown then false else true
    | none => true
  else false

/-- Decision and next persisted state for one alert, as computed by the body of
check_alerts_loop (bot.py lines 134-152): last_price always advances to the
fetched price, last_notified_at advances to now exactly on notification. -/
structure EvalResult where
  should_notify : Bool
  next_last_price : ℚ
  next_last_notified_at : Option ℚ
  deriving DecidableEq, Repr

/-- Evaluate one alert at a fetched current price (bot.py lines 134-152, the pure
part of the loop body shared by both update_alert_state calls). -/
def evalAlert (alert : AlertRow) (current now cooldown : ℚ) : EvalResult :=
  let crossed := crossedCalc alert.last_price alert.target_price current
  let sn := shouldNotifyCalc crossed alert.last_notified_at now cooldown
  { should_notify := sn
    next_last_price := current
    next_last_notified_at := if sn then some now else alert.last_notified_at }

/-- fetch_prices (bot.py lines 63-71): one sequential request per symbol of the
batch, with no per-symbol exception handling — the first failing symbol
(timeout, raise_for_status, malformed payload) propagates and the partial dict
built so far is discarded. -/
def fetch_prices (fetch : String → Except Unit ℚ) : List String → Except Unit (List (String × ℚ))
  | [] => Except.ok []
  | s :: rest =>
      match fetch s with
      | Except.error e => Except.error e
      | Except.ok p =>
          match fetch_prices fetch rest with
          | Except.error e => Except.error e
          | Except.ok ps => Except.ok ((s, p) :: ps)

/-- Lookup in the fetched prices dict, prices.get(symbol) (bot.py line 131). -/
def getPrice (prices : List (String × ℚ)) (symbol : String) : Option ℚ :=
  prices.lookup symbol

/-- Worker for dedupKeepFirst: keep the first occurrence of every symbol,
tracking the symbols already emitted. -/
def dedupKeepFirstAux (seen : List String) : List String → List String
  | [] => []
  | s :: rest =>
      if seen.contains s then dedupKeepFirstAux seen rest
      else s :: dedupKeepFirstAux (s :: seen) rest

/-- Distinct symbols of the loaded alerts in first-insertion order, the Python
dict comprehension of bot.py line 126. -/
def dedupKeepFirst (l : List String) : List String :=
  dedupKeepFirstAux [] l

/-- update_alert_state (bot.py lines 109-117): unconditionally overwrite both
state columns of the row with the given id. -/
def update_alert_state (rows : List AlertRow) (alertId : Nat) (lp : ℚ) (lna : Option ℚ) :
    List AlertRow :=
  rows.map (fun r =>
    if r.alert_id = alertId then
      { r with last_price := some lp, last_notified_at := lna }
    else r)

/-- In-flight state of one poll cycle: the store rows as committed so far, and the
messages successfully delivered so far. -/
structure CycleState where
  store : List AlertRow
  sent : List (Int × String)
  deriving DecidableEq, Repr

/-- The per-alert for-loop of check_alerts_loop (bot.py lines 130-152). A missing
price skips the alert; a notification sends then persists (current, now); no
notification persists (current, unchanged last_notified_at); a delivery failure
raises, so the returned flag is false and no further alert is processed. -/
def processAlerts (sendOk : Int → String → Bool) (prices : List (String × ℚ))
    (now cooldown : ℚ) : List AlertRow → CycleState → CycleState × Bool
  | [], st => (st, true)
  | alert :: rest, st =>
      match getPrice prices alert.symbol with
      | none => processAlerts sendOk prices now cooldown rest st
      | some current =>
          let r := evalAlert alert current now cooldown
          if r.should_notify then
            let text := messageText alert.symbol current alert.target_price
            if sendOk alert.user_id text then
              processAlerts sendOk prices now cooldown rest
                { store := update_alert_state st.store alert.alert_id current (some now)
                  sent := st.sent ++ [(alert.user_id, text)] }
            else
              (st, false)
          else
            processAlerts sendOk prices now cooldown rest
              { st with
                store := update_alert_state st.store alert.alert_id current alert.last_notified_at }

/-- One iteration of the while-True body of check_alerts_loop (bot.py lines
122-155). The try/except at the cycle boundary makes this total: a batch fetch
failure or a mid-cycle delivery failure yields the store as committed at the
failure point together with the flag false (the logged exception); the loop then
sleeps and continues either way. -/
def runCycle (fetch : String → Except Unit ℚ) (sendOk : Int → String → Bool)
    (now cooldown : ℚ) (rows : List AlertRow) : CycleState × Bool :=
  if rows.isEmpty then ({ store := rows, sent := [] }, true)
  else
    match fetch_prices fetch (dedupKeepFirst (rows.map (fun a => a.symbol))) with
    | Except.error _ => ({ store := rows, sent := [] }, false)
    | Except.ok prices => processAlerts sendOk prices now cooldown rows { store := rows, sent := [] }

/-- External environment of one poll cycle: the fetch oracle, the delivery oracle
and the wall clock reading utcnow() of that cycle. -/
structure CycleEnv where
  fetch : String → Except Unit ℚ
  sendOk : Int → String → Bool
  now : ℚ

/-- Store contents after n poll cycles of check_alerts_loop. Non-termination of
the source loop is embedded as totality over the cycle index: every cycle has a
successor state, whatever the environment did. -/
def loopRun (env : Nat → CycleEnv) (cooldown : ℚ) (init : List AlertRow) : Nat → List AlertRow
  | 0 => init
  | n + 1 =>
      (runCycle (env n).fetch (env n).sendOk (env n).now cooldown
        (loopRun env cooldown init n)).1.store

/-- Alert store: the alerts table plus the AUTOINCREMENT id counter (ids are
assigned on insert and never reused, init_db at bot.py lines 43-60). -/
structure Store where
  rows : List AlertRow
  next_id : Nat
  deriving DecidableEq, Repr

/-- Key of the UNIQUE index idx_alert_unique on (user_id, symbol, target_price)
(bot.py lines 57-59). -/
def matchesKey (r : AlertRow) (uid : Int) (sym : String) (tp : ℚ) : Bool :=
  decide (r.user_id = uid) && decide (r.symbol = sym) && decide (r.target_price = tp)

/-- Number of rows of the store matching a uniqueness key. -/
def countMatching (store : Store) (uid : Int) (sym : String) (tp : ℚ) : Nat :=
  (store.rows.filter (fun r => matchesKey r uid sym tp)).length

/-- add_alert (bot.py lines 158-168): INSERT of (user_id, symbol, target_price)
with last_price and last_notified_at starting absent; a violation of the UNIQUE
index raises aiosqlite.IntegrityError, caught and turned into the return value
false with the store unchanged. -/
def add_alert (store : Store) (uid : Int) (sym : String) (tp : ℚ) : Bool × Store :=
  if store.rows.any (fun r => matchesKey r uid sym tp) then
    (false, store)
  else
    (true,
      { rows := store.rows ++ [⟨store.next_id, uid, sym, tp, none, none⟩]
        next_id := store.next_id + 1 })

/-- Row shape returned by list_alerts: (id, symbol, target_price). -/
def Entry := Nat × String × ℚ

instance : DecidableEq Entry := by
  unfold Entry
  infer_instance

/-- Insert an entry into a list sorted ascending by id, keeping it sorted. -/
def insertById (e : Entry) : List Entry → List Entry
  | [] => [e]
  | f :: fs => if e.1 ≤ f.1 then e :: f :: fs else f :: insertById e fs

/-- Insertion sort ascending by id, the ORDER BY id of list_alerts. -/
def sortById : List Entry → List Entry
  | [] => []
  | e :: es => insertById e (sortById es)

/-- list_alerts (bot.py lines 171-178): SELECT id, symbol, target_price WHERE
user_id matches, ORDER BY id ascending. -/
def list_alerts (store : Store) (uid : Int) : List Entry :=
  sortById ((store.rows.filter (fun r => decide (r.user_id = uid))).map
    (fun r => (r.alert_id, r.symbol, r.target_price)))

/-- remove_alert (bot.py lines 181-188): DELETE WHERE id and user_id both match;
returns whether the rowcount was positive. -/
def remove_alert (store : Store) (uid : Int) (alertId : Nat) : Bool × Store :=
  let remaining :=
    store.rows.filter (fun r => !(decide (r.alert_id = alertId) && decide (r.user_id = uid)))
  (decide (remaining.length < store.rows.length), { store with rows := remaining })

/-- Construction of an AlertRow by load_alerts (bot.py lines 94-105): the raw TEXT
column last_notified_at goes through parse_iso. -/
def loadRow (fromisoformat : String → Option ℚ) (alertId : Nat) (uid : Int) (sym : String)
    (tp : ℚ) (lp : Option ℚ) (lnaRaw : Option String) : AlertRow :=
  { alert_id := alertId
    user_id := uid
    symbol := sym
    target_price := tp
    last_price := lp
    last_notified_at := parse_iso fromisoformat lnaRaw }

/-- The integer computed inside formatFixed8 is the mathematical rounding
floor of q * 10^8 + 1/2, so formatFixed8 is indeed fixed-point rendering with
8 fractional digits and round half up. -/
theorem formatFixed8_fdiv_eq_floor (q : ℚ) :
    Int.fdiv (2 * q.num * 100000000 + (q.den : ℤ)) (2 * (q.den : ℤ)) =
      ⌊q * 100000000 + 1 / 2⌋ := by
  have hdpos : 0 < q.den := q.den_pos
  have hd0 : ((q.den : ℚ)) ≠ 0 := by
    exact_mod_cast hdpos.ne'
  have hnum : (q.num : ℚ) = q * (q.den : ℚ) := by
    have h := Rat.num_div_den q
    rwa [div_eq_iff hd0] at h
  have key : q * 100000000 + 1 / 2 =
      ((2 * q.num * 100000000 + (q.den : ℤ) : ℤ) : ℚ) / ((2 * q.den : ℕ) : ℚ) := by
    have hd2 : ((2 * q.den : ℕ) : ℚ) ≠ 0 := by
      have : 0 < 2 * q.den := by omega
      exact_mod_cast this.ne'
    rw [eq_div_iff hd2]
    push_cast
    rw [hnum]
    ring
  have hcast : (2 : ℤ) * (q.den : ℤ) = ((2 * q.den : ℕ) : ℤ) := by
    push_cast
    ring
  rw [hcast, Int.fdiv_eq_ediv _ (by positivity), key, Rat.floor_intCast_div_natCast]

/-- C1: the evaluator of check_alerts_loop reports a crossing exactly when
previous_price < target_price <= current_price (upward) or
previous_price > target_price >= current_price (downward); with last_price
absent no crossing is reported and should_notify is false, so no notification
can fire on the first observed price. -/
theorem c1_crossing_detection (lp target current now cooldown : ℚ)
    (alertId : Nat) (uid : Int) (sym : String) (lna : Option ℚ) :
    (crossedCalc (some lp) target current = true ↔
      (lp < target ∧ target ≤ current) ∨ (lp > target ∧ target ≥ current))
    ∧ crossedCalc none target current = false
    ∧ (evalAlert ⟨alertId, uid, sym, target, none, lna⟩ current now cooldown).should_notify
        = false := by
  refine ⟨?_, rfl, ?_⟩
  · simp [crossedCalc]
  · simp [evalAlert, crossedCalc, shouldNotifyCalc]

/-- C4: when a crossing is detected, a previous notification younger than the
cooldown forces should_notify to false; with last_notified_at absent or at
least cooldown old, the crossing notifies. -/
theorem c4_cooldown_suppression (alert : AlertRow) (current now cooldown t : ℚ)
    (hcross : crossedCalc alert.last_price alert.target_price current = true) :
    (alert.last_notified_at = some t ∧ now - t < cooldown →
        (evalAlert alert current now cooldown).should_notify = false)
    ∧ (alert.last_notified_at = some t ∧ cooldown ≤ now - t →
        (evalAlert alert current now cooldown).should_notify = true)
    ∧ (alert.last_notified_at = none →
        (evalAlert alert current now cooldown).should_notify = true) := by
  have he : (evalAlert alert current now cooldown).should_notify
      = shouldNotifyCalc true alert.last_notified_at now cooldown := by
    simp [evalAlert, hcross]
  refine ⟨fun h => ?_, fun h => ?_, fun h => ?_⟩
  · rw [he, h.1]
    simp [shouldNotifyCalc, h.2]
  · rw [he, h.1]
    simp [shouldNotifyCalc, not_lt.mpr h.2]
  · rw [he, h]
    simp [shouldNotifyCalc]

/-- Witness for C4: a concrete upward crossing, one hour after a notification,
with a 24-hour cooldown, is suppressed. -/
theorem c4_cooldown_suppression_witness :
    (evalAlert ⟨1, 7, "BTCUSDT", 5, some 1, some 0⟩ 10 1 24).should_notify = false :=
  (c4_cooldown_suppression ⟨1, 7, "BTCUSDT", 5, some 1, some 0⟩ 10 1 24 0
    (by decide)).1 ⟨rfl, by norm_num⟩

/-- C5: the evaluated next state sets last_price to the fetched current price
unconditionally and last_notified_at to now exactly when should_notify holds,
keeping the prior value otherwise; and the per-alert loop body persists exactly
that state through update_alert_state when delivery succeeds. -/
theorem c5_evaluation_output_state (alert : AlertRow) (current now cooldown : ℚ) :
    (evalAlert alert current now cooldown).next_last_price = current
    ∧ (evalAlert alert current now cooldown).next_last_notified_at =
        (if (evalAlert alert current now cooldown).should_notify then some now
         else alert.last_notified_at)
    ∧ (processAlerts (fun _ _ => true) [(alert.symbol, current)] now cooldown [alert]
          { store := [alert], sent := [] }).1.store =
        update_alert_state [alert] alert.alert_id current
          (evalAlert alert current now cooldown).next_last_notified_at := by
  refine ⟨rfl, rfl, ?_⟩
  have hp : getPrice [(alert.symbol, current)] alert.symbol = some current := by
    simp [getPrice]
  by_cases h : (evalAlert alert current now cooldown).should_notify
  · simp [processAlerts, hp, h, evalAlert] at *
    simp [h]
  · simp [processAlerts, hp, h, evalAlert] at *
    simp [h]

/-- C9: format_price renders 10000.00000000 as 10000 and 0.00010000 as 0.0001
(8 fixed fractional digits, trailing zeros then a trailing point stripped); the
direction label of the message is the word for above exactly when
current_price >= target_price and the word for below otherwise. -/
theorem c9_price_formatting :
    format_price 10000 = "10000"
    ∧ format_price (1 / 10000) = "0.0001"
    ∧ ∀ current target : ℚ,
        (direction current target = "выше" ↔ target ≤ current)
        ∧ (direction current target = "ниже" ↔ ¬ target ≤ current) := by
  refine ⟨by decide, ?_, ?_⟩
  · rw [show (1 : ℚ) / 10000 = mkRat 1 10000 by norm_num [Rat.mkRat_eq_div]]
    decide
  · intro current target
    by_cases h : target ≤ current <;> simp [direction, h]

/-- C10: parse_iso maps an absent value, the empty string and any string the
ISO parser rejects to none; an alert loaded with such a corrupted
last_notified_at column behaves as never notified, so cooldown suppression
does not apply and should_notify coincides with crossing detection. -/
theorem c10_parse_iso_total (fromisoformat : String → Option ℚ) (s : String)
    (alertId : Nat) (uid : Int) (sym : String) (tp : ℚ) (lp : Option ℚ)
    (current now cooldown : ℚ) (hbad : fromisoformat s = none) :
    parse_iso fromisoformat none = none
    ∧ parse_iso fromisoformat (some "") = none
    ∧ parse_iso fromisoformat (some s) = none
    ∧ (loadRow fromisoformat alertId uid sym tp lp (some s)).last_notified_at = none
    ∧ (evalAlert (loadRow fromisoformat alertId uid sym tp lp (some s)) current now
        cooldown).should_notify = crossedCalc lp tp current := by
  have hps : parse_iso fromisoformat (some s) = none := by
    by_cases hs : s = "" <;> simp [parse_iso, hs, hbad]
  refine ⟨rfl, by simp [parse_iso], hps, by simp [loadRow, hps], ?_⟩
  simp only [evalAlert, loadRow, hps, shouldNotifyCalc]
  cases crossedCalc lp tp current <;> simp

/-- Witness for C10: a concrete corrupted timestamp string is loaded as
never-notified and the alert notifies on its crossing. -/
theorem c10_parse_iso_total_witness :
    (evalAlert (loadRow (fun _ => none) 1 7 "BTCUSDT" 5 (some 1) (some "not-a-timestamp"))
      10 0 24).should_notify = crossedCalc (some 1) 5 10 :=
  (c10_parse_iso_total (fun _ => none) "not-a-timestamp" 1 7 "BTCUSDT" 5 (some 1)
    10 0 24 rfl).2.2.2.2

/-- C2 evidence of the code bug: a batch of two distinct symbols where the first
fetch fails and the second succeeds. fetch_prices has no per-symbol exception
handling, so the whole batch raises: the cycle is caught at the boundary with
the store unchanged and nothing sent — although the alert on the succeeding
symbol would have crossed and notified had it been evaluated. -/
theorem c2_fetch_failure_aborts_whole_cycle :
    runCycle (fun s => if s = "BBBUSDT" then Except.ok 10 else Except.error ())
        (fun _ _ => true) 100 24
        [⟨1, 10, "AAAUSDT", 5, some 1, none⟩, ⟨2, 20, "BBBUSDT", 5, some 1, none⟩] =
      ({ store := [⟨1, 10, "AAAUSDT", 5, some 1, none⟩, ⟨2, 20, "BBBUSDT", 5, some 1, none⟩],
         sent := [] }, false)
    ∧ (evalAlert ⟨2, 20, "BBBUSDT", 5, some 1, none⟩ 10 100 24).should_notify = true :=
  ⟨by decide, by decide⟩

/-- C3 counterexample: a cycle where the fetched price 10 crosses the first
alert's target 5 upward, the notification send fails, and a second alert on
another symbol is pending. The store after the cycle is completely unchanged —
the failing alert's last_price stays some 1 instead of the fetched 10, so the
cycle did not persist its new price state, and the second alert was neither
evaluated nor persisted; nothing at all was delivered. -/
theorem c3_counterexample_delivery_failure :
    runCycle (fun _ => Except.ok 10) (fun _ _ => false) 100 24
        [⟨1, 10, "CCCUSDT", 5, some 1, none⟩, ⟨2, 20, "DDDUSDT", 5, some 1, none⟩] =
      ({ store := [⟨1, 10, "CCCUSDT", 5, some 1, none⟩, ⟨2, 20, "DDDUSDT", 5, some 1, none⟩],
         sent := [] }, false)
    ∧ (evalAlert ⟨1, 10, "CCCUSDT", 5, some 1, none⟩ 10 100 24).should_notify = true
    ∧ (runCycle (fun _ => Except.ok 10) (fun _ _ => false) 100 24
        [⟨1, 10, "CCCUSDT", 5, some 1, none⟩, ⟨2, 20, "DDDUSDT", 5, some 1, none⟩]).1.store.map
          (fun r => r.last_price) = [some 1, some 1] :=
  ⟨by decide, by decide, by decide⟩

/-- C3 amended: when delivery of a notification for an alert fails, the
exception propagates to the cycle boundary — that alert's new price state is
not persisted, no later alert of the cycle is processed, and the in-flight
state is returned exactly as committed before the failing alert, with the
failure flag that the loop catches and logs. -/
theorem c3_amended_delivery_failure_aborts (sendOk : Int → String → Bool)
    (prices : List (String × ℚ)) (now cooldown : ℚ) (alert : AlertRow)
    (rest : List AlertRow) (st : CycleState) (current : ℚ)
    (hp : getPrice prices alert.symbol = some current)
    (hn : (evalAlert alert current now cooldown).should_notify = true)
    (hs : sendOk alert.user_id (messageText alert.symbol current alert.target_price) = false) :
    processAlerts sendOk prices now cooldown (alert :: rest) st = (st, false) := by
  simp [processAlerts, hp, hn, hs]

/-- Witness for the amended C3: a concrete crossing alert whose delivery fails,
followed by a pending alert, leaves the cycle state untouched. -/
theorem c3_amended_delivery_failure_aborts_witness :
    processAlerts (fun _ _ => false) [("CCCUSDT", 10)] 100 24
        [⟨1, 10, "CCCUSDT", 5, some 1, none⟩, ⟨2, 20, "DDDUSDT", 5, some 1, none⟩]
        { store := [⟨1, 10, "CCCUSDT", 5, some 1, none⟩, ⟨2, 20, "DDDUSDT", 5, some 1, none⟩],
          sent := [] } =
      ({ store := [⟨1, 10, "CCCUSDT", 5, some 1, none⟩, ⟨2, 20, "DDDUSDT", 5, some 1, none⟩],
         sent := [] }, false) :=
  c3_amended_delivery_failure_aborts (fun _ _ => false) [("CCCUSDT", 10)] 100 24
    ⟨1, 10, "CCCUSDT", 5, some 1, none⟩ [⟨2, 20, "DDDUSDT", 5, some 1, none⟩]
    { store := [⟨1, 10, "CCCUSDT", 5, some 1, none⟩, ⟨2, 20, "DDDUSDT", 5, some 1, none⟩],
      sent := [] } 10 (by decide) (by decide) rfl

/-- C6: the loop always proceeds — the state at cycle n+1 is obtained from the
state at cycle n by the total function runCycle whatever the environment did
(non-termination of while True embedded as totality over the cycle index), and
a cycle whose batch fetch raises is treated as empty: the store is returned
unchanged and nothing is sent, with the failure flag that is only logged. -/
theorem c6_loop_resilience (env : Nat → CycleEnv) (cooldown : ℚ) (init : List AlertRow)
    (n : Nat) (fetch : String → Except Unit ℚ) (sendOk : Int → String → Bool)
    (now : ℚ) (rows : List AlertRow)
    (hfail : fetch_prices fetch (dedupKeepFirst (rows.map (fun a => a.symbol))) =
      Except.error ()) :
    loopRun env cooldown init (n + 1) =
      (runCycle (env n).fetch (env n).sendOk (env n).now cooldown
        (loopRun env cooldown init n)).1.store
    ∧ runCycle fetch sendOk now cooldown rows = ({ store := rows, sent := [] }, false) := by
  refine ⟨rfl, ?_⟩
  cases rows with
  | nil => simp [fetch_prices, dedupKeepFirst, dedupKeepFirstAux] at hfail
  | cons a rest =>
      simp only [List.map_cons] at hfail
      simp [runCycle, hfail]

/-- Witness for C6: a concrete one-alert store whose fetch oracle always fails
yields an unchanged store and a failed-cycle flag. -/
theorem c6_loop_resilience_witness :
    runCycle (fun _ => Except.error ()) (fun _ _ => true) 0 24
        [⟨1, 7, "BTCUSDT", 5, none, none⟩] =
      ({ store := [⟨1, 7, "BTCUSDT", 5, none, none⟩], sent := [] }, false) :=
  (c6_loop_resilience (fun _ => ⟨fun _ => Except.error (), fun _ _ => true, 0⟩) 24 [] 0
    (fun _ => Except.error ()) (fun _ _ => true) 0 [⟨1, 7, "BTCUSDT", 5, none, none⟩]
    rfl).2

/-- Membership is invariant under sorted insertion. -/
theorem mem_insertById (e f : Entry) (l : List Entry) :
    f ∈ insertById e l ↔ f = e ∨ f ∈ l := by
  induction l with
  | nil => simp [insertById]
  | cons g gs ih =>
      by_cases h : e.1 ≤ g.1
      · simp [insertById, h]
      · simp [insertById, h, ih]
        tauto

/-- Membership is invariant under sortById. -/
theorem mem_sortById (f : Entry) (l : List Entry) : f ∈ sortById l ↔ f ∈ l := by
  induction l with
  | nil => simp [sortById]
  | cons e es ih => simp [sortById, mem_insertById, ih]

/-- Sorted insertion preserves the ascending-by-id ordering. -/
theorem pairwise_insertById (e : Entry) (l : List Entry)
    (h : List.Pairwise (fun a b : Entry => a.1 ≤ b.1) l) :
    List.Pairwise (fun a b : Entry => a.1 ≤ b.1) (insertById e l) := by
  induction l with
  | nil => simp [insertById]
  | cons g gs ih =>
      rcases List.pairwise_cons.mp h with ⟨hg, hgs⟩
      by_cases hle : e.1 ≤ g.1
      · rw [insertById, if_pos hle]
        refine List.pairwise_cons.mpr ⟨?_, h⟩
        intro b hb
        rcases List.mem_cons.mp hb with hbg | hbgs
        · exact hbg ▸ hle
        · exact le_trans hle (hg b hbgs)
      · rw [insertById, if_neg hle]
        refine List.pairwise_cons.mpr ⟨?_, ih hgs⟩
        intro b hb
        rcases (mem_insertById e b gs).mp hb with hbe | hbgs
        · exact hbe ▸ le_of_not_le hle
        · exact hg b hbgs

/-- sortById returns a list that is ascending by id. -/
theorem pairwise_sortById (l : List Entry) :
    List.Pairwise (fun a b : Entry => a.1 ≤ b.1) (sortById l) := by
  induction l with
  | nil => exact List.Pairwise.nil
  | cons e es ih => exact pairwise_insertById e (sortById es) ih

/-- C7: add_alert inserts and returns true when no alert with the same
(owner, symbol, target) key exists; with a matching row present it returns
false and leaves the store unchanged, so of two identical adds the first
creates, the second reports a duplicate, and exactly one matching row remains. -/
theorem c7_duplicate_add (store : Store) (uid : Int) (sym : String) (tp : ℚ) :
    (countMatching store uid sym tp = 0 →
      add_alert store uid sym tp =
        (true, { rows := store.rows ++ [⟨store.next_id, uid, sym, tp, none, none⟩],
                 next_id := store.next_id + 1 })
      ∧ countMatching (add_alert store uid sym tp).2 uid sym tp = 1
      ∧ (add_alert (add_alert store uid sym tp).2 uid sym tp).1 = false
      ∧ (add_alert (add_alert store uid sym tp).2 uid sym tp).2 =
          (add_alert store uid sym tp).2)
    ∧ (0 < countMatching store uid sym tp → add_alert store uid sym tp = (false, store)) := by
  have hself : matchesKey ⟨store.next_id, uid, sym, tp, none, none⟩ uid sym tp = true := by
    simp [matchesKey]
  constructor
  · intro h0
    have hnone : ∀ r ∈ store.rows, ¬ matchesKey r uid sym tp = true := by
      simpa [countMatching, List.length_eq_zero, List.filter_eq_nil_iff] using h0
    have hany : store.rows.any (fun r => matchesKey r uid sym tp) = false := by
      simp only [List.any_eq_false]
      exact hnone
    have hstep : add_alert store uid sym tp =
        (true, { rows := store.rows ++ [⟨store.next_id, uid, sym, tp, none, none⟩],
                 next_id := store.next_id + 1 }) := by
      simp [add_alert, hany]
    have hany2 : (store.rows ++ [(⟨store.next_id, uid, sym, tp, none, none⟩ : AlertRow)]).any
        (fun r => matchesKey r uid sym tp) = true := by
      simp [hself]
    refine ⟨hstep, ?_, ?_, ?_⟩
    · rw [hstep]
      simp only [countMatching, List.filter_append]
      rw [List.filter_eq_nil_iff.mpr hnone]
      simp [hself]
    · rw [hstep]
      simp [add_alert, hany2]
    · rw [hstep]
      simp [add_alert, hany2]
  · intro hpos
    have hany : store.rows.any (fun r => matchesKey r uid sym tp) = true := by
      by_contra h
      rw [Bool.not_eq_true, List.any_eq_false] at h
      have hnil : store.rows.filter (fun r => matchesKey r uid sym tp) = [] :=
        List.filter_eq_nil_iff.mpr h
      rw [countMatching, hnil] at hpos
      simp at hpos
    simp [add_alert, hany]

/-- Witness for C7: on an empty store the second identical add reports a
duplicate. -/
theorem c7_duplicate_add_witness :
    (add_alert (add_alert ⟨[], 1⟩ 7 "BTCUSDT" 5).2 7 "BTCUSDT" 5).1 = false :=
  ((c7_duplicate_add ⟨[], 1⟩ 7 "BTCUSDT" 5).1 (by decide)).2.2.1

/-- C8: after a successful add, listing for the owner contains an entry with the
submitted symbol and target price, in ascending id order; removing that id as a
different owner fails and changes nothing, removing it as the owner succeeds,
and afterwards the owner's listing has no entry with that id any more. -/
theorem c8_store_round_trip (store : Store) (uid uid2 : Int) (sym : String) (tp : ℚ)
    (hwf : ∀ r ∈ store.rows, r.alert_id < store.next_id)
    (_htp : 0 < tp)
    (hadd : (add_alert store uid sym tp).1 = true)
    (howner : uid2 ≠ uid) :
    (store.next_id, sym, tp) ∈ list_alerts (add_alert store uid sym tp).2 uid
    ∧ List.Pairwise (fun a b : Entry => a.1 ≤ b.1)
        (list_alerts (add_alert store uid sym tp).2 uid)
    ∧ remove_alert (add_alert store uid sym tp).2 uid2 store.next_id =
        (false, (add_alert store uid sym tp).2)
    ∧ (remove_alert (add_alert store uid sym tp).2 uid store.next_id).1 = true
    ∧ ∀ e ∈ list_alerts (remove_alert (add_alert store uid sym tp).2 uid store.next_id).2 uid,
        e.1 ≠ store.next_id := by
  have hany : store.rows.any (fun r => matchesKey r uid sym tp) = false := by
    by_contra h
    rw [Bool.not_eq_false] at h
    simp [add_alert, h] at hadd
  have hstep : (add_alert store uid sym tp).2 =
      { rows := store.rows ++ [⟨store.next_id, uid, sym, tp, none, none⟩],
        next_id := store.next_id + 1 } := by
    simp [add_alert, hany]
  have holdkeep : ∀ u : Int, store.rows.filter
      (fun r => !(decide (r.alert_id = store.next_id) && decide (r.user_id = u))) =
      store.rows := by
    intro u
    apply List.filter_eq_self.mpr
    intro r hr
    simp [Nat.ne_of_lt (hwf r hr)]
  have hrem : (remove_alert (add_alert store uid sym tp).2 uid store.next_id).2 =
      { rows := store.rows, next_id := store.next_id + 1 } := by
    rw [hstep]
    simp only [remove_alert, List.filter_append, holdkeep]
    simp
  refine ⟨?_, ?_, ?_, ?_, ?_⟩
  · rw [hstep]
    simp only [list_alerts]
    rw [mem_sortById]
    apply List.mem_map.mpr
    refine ⟨⟨store.next_id, uid, sym, tp, none, none⟩, ?_, rfl⟩
    apply List.mem_filter.mpr
    simp
  · simp only [list_alerts]
    exact pairwise_sortById _
  · rw [hstep]
    simp only [remove_alert, List.filter_append]
    have hfilterNew : ([(⟨store.next_id, uid, sym, tp, none, none⟩ : AlertRow)]).filter
        (fun r => !(decide (r.alert_id = store.next_id) && decide (r.user_id = uid2))) =
        [⟨store.next_id, uid, sym, tp, none, none⟩] := by
      simp [Ne.symm howner]
    rw [holdkeep, hfilterNew]
    simp
  · rw [hstep]
    simp only [remove_alert, List.filter_append, holdkeep]
    simp
  · intro e he
    rw [hrem] at he
    simp only [list_alerts] at he
    rw [mem_sortById] at he
    rcases List.mem_map.mp he with ⟨r, hrmem, hproj⟩
    rcases List.mem_filter.mp hrmem with ⟨hrrows, _⟩
    have : e.1 = r.alert_id := by
      rw [← hproj]
    rw [this]
    exact Nat.ne_of_lt (hwf r hrrows)

/-- Witness for C8: the round trip on an initially empty store with owner 7 and
stranger 9. -/
theorem c8_store_round_trip_witness :
    (1, "BTCUSDT", (5 : ℚ)) ∈ list_alerts (add_alert ⟨[], 1⟩ 7 "BTCUSDT" 5).2 7 :=
  (c8_store_round_trip ⟨[], 1⟩ 7 9 "BTCUSDT" 5 (by simp) (by norm_num) (by decide)
    (by decide)).1

end CryptoAlertBot
